import Mathlib

/-!
Verification of the sds011 protocol engine.

This file is a shallow embedding of the protocol code of the `sds011`
crate: the checksum (`util.rs`), the typed command encoder (`command.rs`,
`Command::write` in `lib.rs`), the response decoders and `parse_packet`
(`lib.rs`), the `WorkingPeriod` constructors (`util.rs`), and the per-byte
frame accumulator of `read_thread` (`lib.rs`).

Conventions of the embedding:
- Rust `u8`/`u16` values are `Nat`s; wherever the source relies on the
  machine width, the width appears as an explicit `% 2 ^ w`.
- Rust `f32` fields (`pm25`, `pm10`) are modelled over `ℚ`; the only
  arithmetic performed on them by the source is division of a 16-bit
  integer by 10, which the claims compare against decimal literals.
- `Error::PacketError(format!(..))` carries a formatted message in Rust;
  the distinct message shapes are represented by `PacketErrorKind`
  together with the values interpolated into each message.
-/

namespace Sds011

/-- Rust `util::checksum`: sums the bytes with unsigned 16-bit accumulation
(`let sum: u16 = bytes.iter().map(|b| *b as u16).sum()`) and returns the
low 8 bits (`sum.to_le_bytes()[0]`). -/
def checksum (bytes : List Nat) : Nat :=
  (bytes.foldl (fun acc b => (acc + b) % 65536) 0) % 256

/-- Rust `util::ReportingMode`. -/
inductive ReportingMode
  | active
  | query
  deriving DecidableEq

/-- Rust `ReportingMode::from_byte`: `0x00` is Active, anything else Query. -/
def ReportingMode.from_byte (byte : Nat) : ReportingMode :=
  if byte = 0x00 then .active else .query

/-- Rust `ReportingMode::as_byte`. -/
def ReportingMode.as_byte : ReportingMode → Nat
  | .active => 0x00
  | .query => 0x01

/-- Rust `util::WorkMode`. -/
inductive WorkMode
  | sleep
  | work
  deriving DecidableEq

/-- Rust `WorkMode::from_byte`: `0x00` is Sleep, anything else Work. -/
def WorkMode.from_byte (byte : Nat) : WorkMode :=
  if byte = 0x00 then .sleep else .work

/-- Rust `WorkMode::as_byte`. -/
def WorkMode.as_byte : WorkMode → Nat
  | .sleep => 0x00
  | .work => 0x01

/-- Rust `util::WorkingPeriod`. -/
inductive WorkingPeriod
  | continuous
  | periodic (n : Nat)
  deriving DecidableEq

/-- Rust `WorkingPeriod::from_byte`: raw byte 0 is Continuous, any other raw
byte `n` is Periodic(n). -/
def WorkingPeriod.from_byte (byte : Nat) : WorkingPeriod :=
  if byte = 0 then .continuous else .periodic byte

/-- Rust `WorkingPeriod::as_byte`. -/
def WorkingPeriod.as_byte : WorkingPeriod → Nat
  | .continuous => 0
  | .periodic n => n

/-- The two `reason` strings used by the `WorkingPeriod` constructors in
`util.rs`: `outOfRange` stands for the literal
`"value out of range (0 <= n <= 30)"` and `couldNotParseInt` for
`"could not parse int: {e}"` (the integer-parse failure). -/
inductive WorkingPeriodReason
  | outOfRange
  | couldNotParseInt
  deriving DecidableEq

/-- The distinct `Error::PacketError` messages produced by `parse_packet`
and by the read loop, each with the values interpolated into the message:
`invalidLength` for `"packet has invalid length"`, `invalidChecksum` for
`"packet has invalid checksum: expected=_ received=_"`, `invalidCommand`
for `"packet has invalid command: _/_"`, and `tooLong` for
`"packet is too long, will discard"`. -/
inductive PacketErrorKind
  | invalidLength
  | invalidChecksum (expected received : Nat)
  | invalidCommand (command command_extra : Nat)
  | tooLong
  deriving DecidableEq

/-- The constructors of the crate's `Error` enum that the protocol engine
itself produces (transport errors wrap an `io::Error` and are out of
scope of the embedded code paths). -/
inductive Error
  | packetError (packet : List Nat) (kind : PacketErrorKind)
  | invalidWorkingPeriod (period : String) (reason : WorkingPeriodReason)
  deriving DecidableEq

/-- Rust `TryFrom<usize> for WorkingPeriod`: 0 is Continuous, 1..=30 is
Periodic, everything else is the out-of-range `InvalidWorkingPeriod`
error carrying `value.to_string()`. -/
def WorkingPeriod.tryFrom (value : Nat) : Except Error WorkingPeriod :=
  if value = 0 then .ok .continuous
  else if 1 ≤ value ∧ value ≤ 30 then .ok (.periodic value)
  else .error (.invalidWorkingPeriod (toString value) .outOfRange)

/-- Rust's `str::parse::<usize>()`: an optional leading `+`, then one or
more ASCII digits, and the value must fit the 64-bit `usize`; anything
else (empty string, sign `-`, non-digit, overflow) fails. -/
def parse_usize (s : String) : Option Nat :=
  let chars :=
    match s.data with
    | '+' :: rest => rest
    | cs => cs
  if chars = [] then none
  else if chars.all Char.isDigit then
    let v := chars.foldl (fun a c => a * 10 + (c.toNat - 48)) 0
    if v < 2 ^ 64 then some v else none
  else none

/-- Rust `FromStr for WorkingPeriod`: parse the string as a `usize` (failure
is the `could not parse int` `InvalidWorkingPeriod` error carrying the
original string), then delegate to `TryFrom<usize>`. -/
def WorkingPeriod.from_str (s : String) : Except Error WorkingPeriod :=
  match parse_usize s with
  | none => .error (.invalidWorkingPeriod s .couldNotParseInt)
  | some value => WorkingPeriod.tryFrom value

/-- Rust `SetReportingModeResponse`. -/
structure SetReportingModeResponse where
  query : Bool
  mode : ReportingMode
  device : Nat
  deriving DecidableEq

/-- Rust `QueryResponse` (`pm25`, `pm10` are `f32` in Rust, modelled over `ℚ`). -/
structure QueryResponse where
  pm25 : ℚ
  pm10 : ℚ
  device : Nat
  deriving DecidableEq

/-- Rust `SetDeviceIdResponse`. -/
structure SetDeviceIdResponse where
  device : Nat
  deriving DecidableEq

/-- Rust `SetSleepWorkResponse`. -/
structure SetSleepWorkResponse where
  query : Bool
  mode : WorkMode
  device : Nat
  deriving DecidableEq

/-- Rust `SetWorkingPeriodResponse`. -/
structure SetWorkingPeriodResponse where
  query : Bool
  working_period : WorkingPeriod
  device : Nat
  deriving DecidableEq

/-- Rust `GetFirmwareVersionResponse`. -/
structure GetFirmwareVersionResponse where
  year : Nat
  month : Nat
  day : Nat
  device : Nat
  deriving DecidableEq

/-- The `Response` enum of `lib.rs`. -/
inductive Response
  | setReportingMode (r : SetReportingModeResponse)
  | query (r : QueryResponse)
  | setDeviceId (r : SetDeviceIdResponse)
  | setSleepWork (r : SetSleepWorkResponse)
  | setWorkingPeriod (r : SetWorkingPeriodResponse)
  | getFirmwareVersion (r : GetFirmwareVersionResponse)
  deriving DecidableEq

/-- Rust `SetReportingModeResponse::parse`: `advance(3)`, query flag from byte
3, mode from byte 4, skip byte 5, big-endian device id from bytes 6-7.
The argument is the full 10-byte packet, as in `parse_packet`. -/
def SetReportingModeResponse.parse (buf : List Nat) : Response :=
  .setReportingMode
    { query := buf.getD 3 0 == 0x00
      mode := ReportingMode.from_byte (buf.getD 4 0)
      device := 256 * buf.getD 6 0 + buf.getD 7 0 }

/-- Rust `QueryResponse::parse`: `advance(2)`, two little-endian `u16`s
(bytes 2-3 and 4-5) each divided by 10, big-endian device id from
bytes 6-7. -/
def QueryResponse.parse (buf : List Nat) : Response :=
  .query
    { pm25 := ((buf.getD 2 0 + 256 * buf.getD 3 0 : Nat) : ℚ) / 10
      pm10 := ((buf.getD 4 0 + 256 * buf.getD 5 0 : Nat) : ℚ) / 10
      device := 256 * buf.getD 6 0 + buf.getD 7 0 }

/-- Rust `SetDeviceIdResponse::parse`: `advance(6)`, big-endian device id from
bytes 6-7. -/
def SetDeviceIdResponse.parse (buf : List Nat) : Response :=
  .setDeviceId { device := 256 * buf.getD 6 0 + buf.getD 7 0 }

/-- Rust `SetSleepWorkResponse::parse`: `advance(3)`, query flag from byte 3,
work mode from byte 4, skip byte 5, big-endian device id from bytes 6-7. -/
def SetSleepWorkResponse.parse (buf : List Nat) : Response :=
  .setSleepWork
    { query := buf.getD 3 0 == 0x00
      mode := WorkMode.from_byte (buf.getD 4 0)
      device := 256 * buf.getD 6 0 + buf.getD 7 0 }

/-- Rust `SetWorkingPeriodResponse::parse`: `advance(3)`, query flag from byte
3, working period from byte 4, skip byte 5, big-endian device id from
bytes 6-7. -/
def SetWorkingPeriodResponse.parse (buf : List Nat) : Response :=
  .setWorkingPeriod
    { query := buf.getD 3 0 == 0x00
      working_period := WorkingPeriod.from_byte (buf.getD 4 0)
      device := 256 * buf.getD 6 0 + buf.getD 7 0 }

/-- Rust `GetFirmwareVersionResponse::parse`: `advance(3)`, year/month/day
from bytes 3-5, big-endian device id from bytes 6-7. -/
def GetFirmwareVersionResponse.parse (buf : List Nat) : Response :=
  .getFirmwareVersion
    { year := buf.getD 3 0
      month := buf.getD 4 0
      day := buf.getD 5 0
      device := 256 * buf.getD 6 0 + buf.getD 7 0 }

/-- Rust `parse_packet` from `lib.rs`: reject slices whose length is not 10,
reject a checksum mismatch (`checksum(&packet[2..=7])` against
`packet[8]`), then dispatch on `(packet[1], packet[2])` exactly in the
source's match order. -/
def parse_packet (packet : List Nat) : Except Error Response :=
  if packet.length ≠ 10 then
    .error (.packetError packet .invalidLength)
  else
    let checksum_received := packet.getD 8 0
    let checksum_bytes := (packet.drop 2).take 6
    let checksum_calculated := checksum checksum_bytes
    if checksum_calculated ≠ checksum_received then
      .error (.packetError packet
        (.invalidChecksum checksum_calculated checksum_received))
    else
      let command := packet.getD 1 0
      let command_extra := packet.getD 2 0
      if command = 0xC0 then
        .ok (QueryResponse.parse packet)
      else if command = 0xC5 ∧ command_extra = 0x02 then
        .ok (SetReportingModeResponse.parse packet)
      else if command = 0xC5 ∧ command_extra = 0x05 then
        .ok (SetDeviceIdResponse.parse packet)
      else if command = 0xC5 ∧ command_extra = 0x06 then
        .ok (SetSleepWorkResponse.parse packet)
      else if command = 0xC5 ∧ command_extra = 0x08 then
        .ok (SetWorkingPeriodResponse.parse packet)
      else if command = 0xC5 ∧ command_extra = 0x07 then
        .ok (GetFirmwareVersionResponse.parse packet)
      else
        .error (.packetError packet
          (.invalidCommand command command_extra))

/-- The typed commands of the crate (`Cmd` in `lib.rs`). -/
inductive Cmd
  | setReportingMode (query : Bool) (mode : ReportingMode)
  | query
  | setDeviceId (id : Nat)
  | setSleepWork (query : Bool) (mode : WorkMode)
  | setWorkingPeriod (query : Bool) (working_period : WorkingPeriod)
  | getFirmwareVersion
  deriving DecidableEq

/-- Rust `put_u16`: the two big-endian bytes of a `u16`. -/
def put_u16 (v : Nat) : List Nat :=
  [v % 65536 / 256, v % 256]

/-- The per-variant `fn data(&self, bytes: &mut BytesMut)` bodies. -/
def Cmd.data : Cmd → List Nat
  | .setReportingMode q mode =>
      [0x02, if q then 0x00 else 0x01, mode.as_byte]
        ++ List.replicate 10 0x00 ++ [0xFF, 0xFF]
  | .query =>
      [0x04] ++ List.replicate 12 0x00 ++ [0xFF, 0xFF]
  | .setDeviceId id =>
      [0x05] ++ List.replicate 10 0x00 ++ put_u16 id ++ [0xFF, 0xFF]
  | .setSleepWork q mode =>
      [0x06, if q then 0x00 else 0x01, mode.as_byte]
        ++ List.replicate 10 0x00 ++ [0xFF, 0xFF]
  | .setWorkingPeriod q wp =>
      [0x08, if q then 0x00 else 0x01, wp.as_byte]
        ++ List.replicate 10 0x00 ++ [0xFF, 0xFF]
  | .getFirmwareVersion =>
      [0x07] ++ List.replicate 12 0x00 ++ [0xFF, 0xFF]

/-- Rust `Command::id`: the single command id `0xB4` shared by every variant. -/
def Cmd.id (_ : Cmd) : Nat := 0xB4

/-- Rust `Command::write`: header `0xAA`, the shared id, the data section, the
checksum over the data section, tail `0xAB`. -/
def Cmd.write (c : Cmd) : List Nat :=
  [0xAA, c.id] ++ c.data ++ [checksum c.data, 0xAB]

instance {ε α : Type} [DecidableEq ε] [DecidableEq α] :
    DecidableEq (Except ε α) := fun
  | .ok a, .ok b => decidable_of_iff (a = b) (by simp)
  | .ok _, .error _ => isFalse (by simp)
  | .error _, .ok _ => isFalse (by simp)
  | .error a, .error b => decidable_of_iff (a = b) (by simp)

/-- The observable effects of one iteration of the `read_thread` loop:
`framed` records a complete 10-byte frame being handed to `parse_packet`
(an `Ok` result goes to the response channel, an `Err` to the control
channel as `ControlMessage::Error`); `tooLong` is the
`"packet is too long"` control error. -/
inductive AccEvent
  | framed (packet : List Nat) (result : Except Error Response)
  | tooLong (packet : List Nat)
  deriving DecidableEq

/-- The body of the `read_thread` loop for one successfully read byte,
acting on `current_packet`: append while a frame is in progress, hand a
10-byte frame to `parse_packet` and clear, emit the too-long error past
10 bytes, and otherwise start a frame only on the header byte `0xAA`. -/
def acc_step (current_packet : Option (List Nat)) (byte : Nat) :
    Option (List Nat) × List AccEvent :=
  match current_packet with
  | some packet =>
      let packet := packet ++ [byte]
      if packet.length = 10 then
        (none, [.framed packet (parse_packet packet)])
      else if packet.length > 10 then
        (some packet, [.tooLong packet])
      else
        (some packet, [])
  | none =>
      if byte = 0xAA then (some [byte], []) else (none, [])

/-- Runs the read loop over a list of bytes, collecting the emitted
events in order. -/
def acc_run (current_packet : Option (List Nat)) (bytes : List Nat) :
    Option (List Nat) × List AccEvent :=
  match bytes with
  | [] => (current_packet, [])
  | b :: rest =>
      let s := acc_step current_packet b
      let r := acc_run s.1 rest
      (r.1, s.2 ++ r.2)

/-- The decode outcome of a packet with the raw-packet payload erased
from the error: the result value on success, and which error fired (with
its interpolated non-packet data) on failure. -/
def err_payload_erased : Error → Error
  | .packetError _ kind => .packetError [] kind
  | e => e

/-- Rust `parse_packet` up to the raw-packet payload inside the error. -/
def decode_outcome (packet : List Nat) : Except Error Response :=
  (parse_packet packet).mapError err_payload_erased

/-! ### Helper lemmas -/

theorem exists_ten {p : List Nat} (h : p.length = 10) :
    ∃ b0 b1 b2 b3 b4 b5 b6 b7 b8 b9,
      p = [b0, b1, b2, b3, b4, b5, b6, b7, b8, b9] := by
  obtain ⟨b0, p, rfl⟩ := List.exists_of_length_succ p h
  simp only [List.length_cons] at h
  obtain ⟨b1, p, rfl⟩ := List.exists_of_length_succ p (show p.length = 8 + 1 by omega)
  simp only [List.length_cons] at h
  obtain ⟨b2, p, rfl⟩ := List.exists_of_length_succ p (show p.length = 7 + 1 by omega)
  simp only [List.length_cons] at h
  obtain ⟨b3, p, rfl⟩ := List.exists_of_length_succ p (show p.length = 6 + 1 by omega)
  simp only [List.length_cons] at h
  obtain ⟨b4, p, rfl⟩ := List.exists_of_length_succ p (show p.length = 5 + 1 by omega)
  simp only [List.length_cons] at h
  obtain ⟨b5, p, rfl⟩ := List.exists_of_length_succ p (show p.length = 4 + 1 by omega)
  simp only [List.length_cons] at h
  obtain ⟨b6, p, rfl⟩ := List.exists_of_length_succ p (show p.length = 3 + 1 by omega)
  simp only [List.length_cons] at h
  obtain ⟨b7, p, rfl⟩ := List.exists_of_length_succ p (show p.length = 2 + 1 by omega)
  simp only [List.length_cons] at h
  obtain ⟨b8, p, rfl⟩ := List.exists_of_length_succ p (show p.length = 1 + 1 by omega)
  simp only [List.length_cons] at h
  obtain ⟨b9, p, rfl⟩ := List.exists_of_length_succ p (show p.length = 0 + 1 by omega)
  simp only [List.length_cons] at h
  have hnil : p = [] := List.length_eq_zero.1 (by omega)
  subst hnil
  exact ⟨b0, b1, b2, b3, b4, b5, b6, b7, b8, b9, rfl⟩

theorem checksum_foldl (l : List Nat) :
    ∀ a : Nat,
      l.foldl (fun acc b => (acc + b) % 65536) (a % 65536) = (a + l.sum) % 65536 := by
  induction l with
  | nil => intro a; simp
  | cons x xs ih =>
    intro a
    simp only [List.foldl_cons, List.sum_cons]
    rw [Nat.mod_add_mod, ih (a + x), Nat.add_assoc]

theorem checksum_eq_sum_mod (bytes : List Nat) : checksum bytes = bytes.sum % 256 := by
  have h := checksum_foldl bytes 0
  simp only [Nat.zero_mod, Nat.zero_add] at h
  rw [checksum, h]
  exact Nat.mod_mod_of_dvd _ (by norm_num)

theorem parse_packet_explicit (b0 b1 b2 b3 b4 b5 b6 b7 b8 b9 : Nat) :
    parse_packet [b0, b1, b2, b3, b4, b5, b6, b7, b8, b9] =
      (if checksum [b2, b3, b4, b5, b6, b7] ≠ b8 then
        .error (.packetError [b0, b1, b2, b3, b4, b5, b6, b7, b8, b9]
          (.invalidChecksum (checksum [b2, b3, b4, b5, b6, b7]) b8))
      else if b1 = 0xC0 then
        .ok (QueryResponse.parse [b0, b1, b2, b3, b4, b5, b6, b7, b8, b9])
      else if b1 = 0xC5 ∧ b2 = 0x02 then
        .ok (SetReportingModeResponse.parse [b0, b1, b2, b3, b4, b5, b6, b7, b8, b9])
      else if b1 = 0xC5 ∧ b2 = 0x05 then
        .ok (SetDeviceIdResponse.parse [b0, b1, b2, b3, b4, b5, b6, b7, b8, b9])
      else if b1 = 0xC5 ∧ b2 = 0x06 then
        .ok (SetSleepWorkResponse.parse [b0, b1, b2, b3, b4, b5, b6, b7, b8, b9])
      else if b1 = 0xC5 ∧ b2 = 0x08 then
        .ok (SetWorkingPeriodResponse.parse [b0, b1, b2, b3, b4, b5, b6, b7, b8, b9])
      else if b1 = 0xC5 ∧ b2 = 0x07 then
        .ok (GetFirmwareVersionResponse.parse [b0, b1, b2, b3, b4, b5, b6, b7, b8, b9])
      else
        .error (.packetError [b0, b1, b2, b3, b4, b5, b6, b7, b8, b9]
          (.invalidCommand b1 b2))) :=
  rfl

theorem parse_packet_ok_length_checksum {p : List Nat}
    (hok : ∃ r, parse_packet p = .ok r) :
    p.length = 10 ∧ checksum ((p.drop 2).take 6) = p.getD 8 0 := by
  obtain ⟨r, hr⟩ := hok
  by_cases hlen : p.length = 10
  · refine ⟨hlen, ?_⟩
    by_contra hck
    simp only [parse_packet, hlen] at hr
    rw [if_neg (by omega)] at hr
    rw [if_pos hck] at hr
    exact Except.noConfusion hr
  · simp only [parse_packet] at hr
    rw [if_pos hlen] at hr
    exact Except.noConfusion hr

theorem acc_run_cons (s : Option (List Nat)) (b : Nat) (rest : List Nat) :
    acc_run s (b :: rest) =
      ((acc_run (acc_step s b).1 rest).1,
        (acc_step s b).2 ++ (acc_run (acc_step s b).1 rest).2) := rfl

theorem acc_run_garbage (garbage : List Nat) (hg : ∀ g ∈ garbage, g ≠ 0xAA)
    (bytes : List Nat) :
    acc_run none (garbage ++ bytes) = acc_run none bytes := by
  induction garbage with
  | nil => rfl
  | cons g gs ih =>
    have h1 : g ≠ 0xAA := hg g (by simp)
    have ih' := ih (fun x hx => hg x (by simp [hx]))
    have hstep : acc_step none g = (none, []) := by
      simp only [acc_step]
      rw [if_neg h1]
    rw [List.cons_append, acc_run_cons, hstep]
    dsimp only
    rw [ih']
    rfl

theorem acc_run_fill (bytes : List Nat) :
    ∀ buf : List Nat, bytes ≠ [] → buf.length + bytes.length = 10 →
      acc_run (some buf) bytes =
        (none, [.framed (buf ++ bytes) (parse_packet (buf ++ bytes))]) := by
  induction bytes with
  | nil => intro buf h; exact absurd rfl h
  | cons b rest ih =>
    intro buf _ hlen
    simp only [List.length_cons] at hlen
    by_cases hrest : rest = []
    · subst hrest
      simp only [List.length_nil] at hlen
      have h10 : (buf ++ [b]).length = 10 := by
        simp only [List.length_append, List.length_cons, List.length_nil]
        omega
      have hstep : acc_step (some buf) b =
          (none, [.framed (buf ++ [b]) (parse_packet (buf ++ [b]))]) := by
        simp only [acc_step]
        rw [if_pos h10]
      rw [acc_run_cons, hstep]
      rfl
    · have hlena : (buf ++ [b]).length = buf.length + 1 := by simp
      have h10 : ¬ (buf ++ [b]).length = 10 := by
        have := List.length_pos.2 hrest
        omega
      have hgt : ¬ (buf ++ [b]).length > 10 := by omega
      have hstep : acc_step (some buf) b = (some (buf ++ [b]), []) := by
        simp only [acc_step]
        rw [if_neg h10, if_neg hgt]
      rw [acc_run_cons, hstep]
      dsimp only
      rw [ih (buf ++ [b]) hrest (by simp only [List.length_append, List.length_cons, List.length_nil]; omega)]
      rw [List.append_assoc]
      rfl

theorem acc_step_inv (s : Option (List Nat)) (b : Nat)
    (h : ∀ buf, s = some buf → 1 ≤ buf.length ∧ buf.length ≤ 9) :
    (∀ buf, (acc_step s b).1 = some buf → 1 ≤ buf.length ∧ buf.length ≤ 9)
    ∧ ∀ p, AccEvent.tooLong p ∉ (acc_step s b).2 := by
  cases s with
  | none =>
    by_cases hb : b = 0xAA
    · subst hb
      refine ⟨?_, ?_⟩
      · intro buf hbuf
        have hbuf' : some [0xAA] = some buf := hbuf
        rw [← Option.some.inj hbuf']
        decide
      · intro p hp
        have hp' : AccEvent.tooLong p ∈ ([] : List AccEvent) := hp
        simp at hp'
    · have hstep : acc_step none b = (none, []) := by
        simp only [acc_step]
        rw [if_neg hb]
      rw [hstep]
      exact ⟨fun buf hbuf => Option.noConfusion hbuf, fun p hp => by simp at hp⟩
  | some buf0 =>
    obtain ⟨hb1, hb9⟩ := h buf0 rfl
    by_cases h10 : (buf0 ++ [b]).length = 10
    · have hstep : acc_step (some buf0) b =
          (none, [.framed (buf0 ++ [b]) (parse_packet (buf0 ++ [b]))]) := by
        simp only [acc_step]
        rw [if_pos h10]
      rw [hstep]
      exact ⟨fun buf hbuf => Option.noConfusion hbuf, fun p hp => by simp at hp⟩
    · have hlena : (buf0 ++ [b]).length = buf0.length + 1 := by simp
      have hgt : ¬ (buf0 ++ [b]).length > 10 := by omega
      have hstep : acc_step (some buf0) b = (some (buf0 ++ [b]), []) := by
        simp only [acc_step]
        rw [if_neg h10, if_neg hgt]
      rw [hstep]
      refine ⟨?_, fun p hp => by simp at hp⟩
      intro buf hbuf
      rw [← Option.some.inj hbuf]
      omega

theorem acc_run_inv (bytes : List Nat) :
    ∀ s, (∀ buf, s = some buf → 1 ≤ buf.length ∧ buf.length ≤ 9) →
      (∀ buf, (acc_run s bytes).1 = some buf → 1 ≤ buf.length ∧ buf.length ≤ 9)
      ∧ ∀ p, AccEvent.tooLong p ∉ (acc_run s bytes).2 := by
  induction bytes with
  | nil =>
    intro s hs
    exact ⟨fun buf hbuf => hs buf hbuf, fun p hp => by simp [acc_run] at hp⟩
  | cons b rest ih =>
    intro s hs
    have hstep := acc_step_inv s b hs
    have hrest := ih (acc_step s b).1 hstep.1
    rw [acc_run_cons]
    refine ⟨hrest.1, ?_⟩
    intro p hp
    dsimp only at hp
    rcases List.mem_append.1 hp with hmem | hmem
    · exact hstep.2 p hmem
    · exact hrest.2 p hmem

/-! ### Claim theorems -/

/-- C3: `checksum` returns the low 8 bits of the unsigned byte sum with
the sum accumulated as unsigned 16-bit before truncation
(`checksum bytes = bytes.sum % 2^16 % 2^8`), and it is a total function
producing a byte on every span, spans whose full sum exceeds `2^16`
included. -/
theorem checksum_low_bits (bytes : List Nat) :
    checksum bytes = bytes.sum % 2 ^ 16 % 2 ^ 8 ∧ checksum bytes < 2 ^ 8 := by
  constructor
  · rw [checksum_eq_sum_mod,
      show (2 : Nat) ^ 16 = 65536 by norm_num,
      show (2 : Nat) ^ 8 = 256 by norm_num,
      Nat.mod_mod_of_dvd _ (by norm_num : (256 : Nat) ∣ 65536)]
  · rw [checksum,
      show (2 : Nat) ^ 8 = 256 by norm_num]
    exact Nat.mod_lt _ (by norm_num)

/-- C6: the exact frame `[AA C5 08 00 05 00 A1 60 0E AB]` decodes to a
`SetWorkingPeriodResponse` with `query = true`,
`working_period = Periodic(5)` and `device = 0xA160`. -/
theorem parse_packet_working_period_frame :
    parse_packet [0xAA, 0xC5, 0x08, 0x00, 0x05, 0x00, 0xA1, 0x60, 0x0E, 0xAB] =
      .ok (.setWorkingPeriod
        { query := true, working_period := .periodic 5, device := 0xA160 }) := by
  decide

/-- C8: constructing a `WorkingPeriod` from an integer or from text
accepts exactly the values 0 through 30 — 0 is Continuous and each
n in 1..=30 is Periodic(n) — and every other input, 31 and negative
text included, is rejected with a descriptive `InvalidWorkingPeriod`
error (range error for out-of-range integers, integer-parse error for
non-`usize` text). -/
theorem working_period_range :
    (∀ n : Nat, (∃ w, WorkingPeriod.tryFrom n = .ok w) ↔ n ≤ 30)
    ∧ WorkingPeriod.tryFrom 0 = .ok .continuous
    ∧ (∀ n : Nat, 1 ≤ n → n ≤ 30 → WorkingPeriod.tryFrom n = .ok (.periodic n))
    ∧ (∀ n : Nat, 30 < n → WorkingPeriod.tryFrom n =
        .error (.invalidWorkingPeriod (toString n) .outOfRange))
    ∧ (∀ s w, WorkingPeriod.from_str s = .ok w ↔
        ∃ n, parse_usize s = some n ∧ WorkingPeriod.tryFrom n = .ok w)
    ∧ WorkingPeriod.from_str ("30") = .ok (.periodic 30)
    ∧ WorkingPeriod.from_str ("31") = .error (.invalidWorkingPeriod ("31") .outOfRange)
    ∧ WorkingPeriod.from_str ("-1") =
        .error (.invalidWorkingPeriod ("-1") .couldNotParseInt) := by
  refine ⟨?_, by decide, ?_, ?_, ?_, by decide, by decide, by decide⟩
  · intro n
    constructor
    · rintro ⟨w, hw⟩
      by_contra hgt
      simp [WorkingPeriod.tryFrom, show n ≠ 0 by omega,
        show ¬(1 ≤ n ∧ n ≤ 30) by omega] at hw
    · intro hle
      by_cases h0 : n = 0
      · exact ⟨.continuous, by simp [WorkingPeriod.tryFrom, h0]⟩
      · exact ⟨.periodic n,
          by simp [WorkingPeriod.tryFrom, h0, show 1 ≤ n ∧ n ≤ 30 by omega]⟩
  · intro n h1 h30
    simp [WorkingPeriod.tryFrom, show n ≠ 0 by omega, show 1 ≤ n ∧ n ≤ 30 by omega]
  · intro n h30
    simp [WorkingPeriod.tryFrom, show n ≠ 0 by omega, show ¬(1 ≤ n ∧ n ≤ 30) by omega]
  · intro s w
    unfold WorkingPeriod.from_str
    cases h : parse_usize s <;> simp [h]

/-- Witness for C8 at the boundary value 30. -/
theorem working_period_range_witness :
    WorkingPeriod.tryFrom 30 = .ok (.periodic 30) :=
  working_period_range.2.2.1 30 (by decide) (by decide)

/-- C10: for every command variant and every field value, the encoded
wire frame is exactly 19 bytes: header `0xAA`, the shared command id
`0xB4`, a 15-byte data section whose last two bytes are `0xFF 0xFF`,
then the checksum of the data section, then tail `0xAB`; encoding is a
total function. -/
theorem cmd_write_frame_shape (c : Cmd) :
    c.write.length = 19
    ∧ c.write = 0xAA :: 0xB4 :: (c.data ++ [checksum c.data, 0xAB])
    ∧ c.data.length = 15
    ∧ ∃ mid, c.data = mid ++ [0xFF, 0xFF] ∧ mid.length = 13 := by
  have hrep10 : List.replicate 10 (0x00 : Nat) = [0, 0, 0, 0, 0, 0, 0, 0, 0, 0] := rfl
  have hrep12 : List.replicate 12 (0x00 : Nat) =
    [0, 0, 0, 0, 0, 0, 0, 0, 0, 0, 0, 0] := rfl
  cases c with
  | setReportingMode q mode =>
    refine ⟨?_, rfl, ?_, ⟨[0x02, if q then 0x00 else 0x01, mode.as_byte]
      ++ List.replicate 10 0x00, ?_, ?_⟩⟩ <;>
      simp [Cmd.write, Cmd.data, Cmd.id, hrep10]
  | query =>
    refine ⟨?_, rfl, ?_, ⟨[0x04] ++ List.replicate 12 0x00, ?_, ?_⟩⟩ <;>
      simp [Cmd.write, Cmd.data, Cmd.id, hrep12]
  | setDeviceId id =>
    refine ⟨?_, rfl, ?_, ⟨[0x05] ++ List.replicate 10 0x00 ++ put_u16 id, ?_, ?_⟩⟩ <;>
      simp [Cmd.write, Cmd.data, Cmd.id, put_u16, hrep10]
  | setSleepWork q mode =>
    refine ⟨?_, rfl, ?_, ⟨[0x06, if q then 0x00 else 0x01, mode.as_byte]
      ++ List.replicate 10 0x00, ?_, ?_⟩⟩ <;>
      simp [Cmd.write, Cmd.data, Cmd.id, hrep10]
  | setWorkingPeriod q wp =>
    refine ⟨?_, rfl, ?_, ⟨[0x08, if q then 0x00 else 0x01, wp.as_byte]
      ++ List.replicate 10 0x00, ?_, ?_⟩⟩ <;>
      simp [Cmd.write, Cmd.data, Cmd.id, hrep10]
  | getFirmwareVersion =>
    refine ⟨?_, rfl, ?_, ⟨[0x07] ++ List.replicate 12 0x00, ?_, ?_⟩⟩ <;>
      simp [Cmd.write, Cmd.data, Cmd.id, hrep12]

/-- C1: `parse_packet` decodes successfully exactly on slices of length
10 whose byte 8 equals `checksum` of bytes 2..=7 and whose
(byte 1, byte 2) pair is one of the six known pairs; each accepted pair
maps to the stated response variant, any other pair fails, and the
decode outcome does not depend on byte 0 (header) or byte 9 (tail). -/
theorem parse_packet_characterization :
    (∀ packet : List Nat,
      (∃ r, parse_packet packet = .ok r) ↔
        (packet.length = 10
          ∧ packet.getD 8 0 = checksum ((packet.drop 2).take 6)
          ∧ (packet.getD 1 0 = 0xC0
             ∨ (packet.getD 1 0 = 0xC5
                ∧ (packet.getD 2 0 = 0x02 ∨ packet.getD 2 0 = 0x05
                   ∨ packet.getD 2 0 = 0x06 ∨ packet.getD 2 0 = 0x08
                   ∨ packet.getD 2 0 = 0x07)))))
    ∧ (∀ packet : List Nat, (∃ r, parse_packet packet = .ok r) →
        ((packet.getD 1 0 = 0xC0 →
            ∃ q, parse_packet packet = .ok (.query q))
         ∧ (packet.getD 1 0 = 0xC5 ∧ packet.getD 2 0 = 0x02 →
            ∃ q, parse_packet packet = .ok (.setReportingMode q))
         ∧ (packet.getD 1 0 = 0xC5 ∧ packet.getD 2 0 = 0x05 →
            ∃ q, parse_packet packet = .ok (.setDeviceId q))
         ∧ (packet.getD 1 0 = 0xC5 ∧ packet.getD 2 0 = 0x06 →
            ∃ q, parse_packet packet = .ok (.setSleepWork q))
         ∧ (packet.getD 1 0 = 0xC5 ∧ packet.getD 2 0 = 0x08 →
            ∃ q, parse_packet packet = .ok (.setWorkingPeriod q))
         ∧ (packet.getD 1 0 = 0xC5 ∧ packet.getD 2 0 = 0x07 →
            ∃ q, parse_packet packet = .ok (.getFirmwareVersion q))))
    ∧ (∀ packet i b, i = 0 ∨ i = 9 →
        decode_outcome (packet.set i b) = decode_outcome packet) := by
  refine ⟨?_, ?_, ?_⟩
  · intro packet
    by_cases hlen : packet.length = 10
    · obtain ⟨b0, b1, b2, b3, b4, b5, b6, b7, b8, b9, rfl⟩ := exists_ten hlen
      show _ ↔ ((10 : Nat) = 10 ∧ b8 = checksum [b2, b3, b4, b5, b6, b7] ∧
        (b1 = 0xC0 ∨ (b1 = 0xC5 ∧
          (b2 = 0x02 ∨ b2 = 0x05 ∨ b2 = 0x06 ∨ b2 = 0x08 ∨ b2 = 0x07))))
      rw [parse_packet_explicit]
      split_ifs with hck h1 h2 h3 h4 h5 h6
      · constructor
        · rintro ⟨r, hr⟩
          simp at hr
        · rintro ⟨-, hc, -⟩
          exact absurd hc.symm hck
      · exact iff_of_true ⟨_, rfl⟩ ⟨rfl, (not_ne_iff.1 hck).symm, Or.inl h1⟩
      · exact iff_of_true ⟨_, rfl⟩
          ⟨rfl, (not_ne_iff.1 hck).symm, Or.inr ⟨h2.1, Or.inl h2.2⟩⟩
      · exact iff_of_true ⟨_, rfl⟩
          ⟨rfl, (not_ne_iff.1 hck).symm, Or.inr ⟨h3.1, Or.inr (Or.inl h3.2)⟩⟩
      · exact iff_of_true ⟨_, rfl⟩
          ⟨rfl, (not_ne_iff.1 hck).symm,
            Or.inr ⟨h4.1, Or.inr (Or.inr (Or.inl h4.2))⟩⟩
      · exact iff_of_true ⟨_, rfl⟩
          ⟨rfl, (not_ne_iff.1 hck).symm,
            Or.inr ⟨h5.1, Or.inr (Or.inr (Or.inr (Or.inl h5.2)))⟩⟩
      · exact iff_of_true ⟨_, rfl⟩
          ⟨rfl, (not_ne_iff.1 hck).symm,
            Or.inr ⟨h6.1, Or.inr (Or.inr (Or.inr (Or.inr h6.2)))⟩⟩
      · constructor
        · rintro ⟨r, hr⟩
          simp at hr
        · rintro ⟨-, -, hc⟩
          exfalso
          rcases hc with hc0 | ⟨hc5, hsub⟩
          · exact h1 hc0
          · rcases hsub with hs | hs | hs | hs | hs
            · exact h2 ⟨hc5, hs⟩
            · exact h3 ⟨hc5, hs⟩
            · exact h4 ⟨hc5, hs⟩
            · exact h5 ⟨hc5, hs⟩
            · exact h6 ⟨hc5, hs⟩
    · exact iff_of_false
        (fun hok => hlen (parse_packet_ok_length_checksum hok).1)
        (fun hc => hlen hc.1)
  · intro packet hok
    obtain ⟨hlen, hck⟩ := parse_packet_ok_length_checksum hok
    obtain ⟨b0, b1, b2, b3, b4, b5, b6, b7, b8, b9, rfl⟩ := exists_ten hlen
    have hck' : checksum [b2, b3, b4, b5, b6, b7] = b8 := hck
    have hckn : ¬ checksum [b2, b3, b4, b5, b6, b7] ≠ b8 := not_ne_iff.2 hck'
    refine ⟨?_, ?_, ?_, ?_, ?_, ?_⟩
    · intro hp
      have hp1 : b1 = 0xC0 := hp
      subst hp1
      exact ⟨_, by rw [parse_packet_explicit, if_neg hckn, if_pos rfl]; rfl⟩
    · rintro ⟨hp1, hp2⟩
      have hq1 : b1 = 0xC5 := hp1
      have hq2 : b2 = 0x02 := hp2
      subst hq1; subst hq2
      exact ⟨_, by
        rw [parse_packet_explicit, if_neg hckn, if_neg (by decide),
          if_pos (by decide : (0xC5 : Nat) = 0xC5 ∧ (0x02 : Nat) = 0x02)]; rfl⟩
    · rintro ⟨hp1, hp2⟩
      have hq1 : b1 = 0xC5 := hp1
      have hq2 : b2 = 0x05 := hp2
      subst hq1; subst hq2
      exact ⟨_, by
        rw [parse_packet_explicit, if_neg hckn, if_neg (by decide),
          if_neg (by decide), if_pos (by decide : (0xC5 : Nat) = 0xC5 ∧ (0x05 : Nat) = 0x05)]; rfl⟩
    · rintro ⟨hp1, hp2⟩
      have hq1 : b1 = 0xC5 := hp1
      have hq2 : b2 = 0x06 := hp2
      subst hq1; subst hq2
      exact ⟨_, by
        rw [parse_packet_explicit, if_neg hckn, if_neg (by decide),
          if_neg (by decide), if_neg (by decide),
          if_pos (by decide : (0xC5 : Nat) = 0xC5 ∧ (0x06 : Nat) = 0x06)]; rfl⟩
    · rintro ⟨hp1, hp2⟩
      have hq1 : b1 = 0xC5 := hp1
      have hq2 : b2 = 0x08 := hp2
      subst hq1; subst hq2
      exact ⟨_, by
        rw [parse_packet_explicit, if_neg hckn, if_neg (by decide),
          if_neg (by decide), if_neg (by decide), if_neg (by decide),
          if_pos (by decide : (0xC5 : Nat) = 0xC5 ∧ (0x08 : Nat) = 0x08)]; rfl⟩
    · rintro ⟨hp1, hp2⟩
      have hq1 : b1 = 0xC5 := hp1
      have hq2 : b2 = 0x07 := hp2
      subst hq1; subst hq2
      exact ⟨_, by
        rw [parse_packet_explicit, if_neg hckn, if_neg (by decide),
          if_neg (by decide), if_neg (by decide), if_neg (by decide),
          if_neg (by decide),
          if_pos (by decide : (0xC5 : Nat) = 0xC5 ∧ (0x07 : Nat) = 0x07)]; rfl⟩
  · rintro packet i b (rfl | rfl)
    · by_cases hlen : packet.length = 10
      · obtain ⟨b0, b1, b2, b3, b4, b5, b6, b7, b8, b9, rfl⟩ := exists_ten hlen
        have hset : [b0, b1, b2, b3, b4, b5, b6, b7, b8, b9].set 0 b =
            [b, b1, b2, b3, b4, b5, b6, b7, b8, b9] := rfl
        rw [hset]
        unfold decode_outcome
        rw [parse_packet_explicit, parse_packet_explicit]
        split_ifs <;> rfl
      · have hlen' : ¬ (packet.set 0 b).length = 10 := by
          rw [List.length_set]; exact hlen
        unfold decode_outcome
        simp only [parse_packet]
        rw [if_pos hlen', if_pos hlen]
        rfl
    · by_cases hlen : packet.length = 10
      · obtain ⟨b0, b1, b2, b3, b4, b5, b6, b7, b8, b9, rfl⟩ := exists_ten hlen
        have hset : [b0, b1, b2, b3, b4, b5, b6, b7, b8, b9].set 9 b =
            [b0, b1, b2, b3, b4, b5, b6, b7, b8, b] := rfl
        rw [hset]
        unfold decode_outcome
        rw [parse_packet_explicit, parse_packet_explicit]
        split_ifs <;> rfl
      · have hlen' : ¬ (packet.set 9 b).length = 10 := by
          rw [List.length_set]; exact hlen
        unfold decode_outcome
        simp only [parse_packet]
        rw [if_pos hlen', if_pos hlen]
        rfl

/-- Witness for C1: the concrete accepted frame is dispatched as a
SetWorkingPeriod response, and overwriting its tail byte does not change
the decode outcome. -/
theorem parse_packet_characterization_witness :
    (∃ q, parse_packet [0xAA, 0xC5, 0x08, 0x00, 0x05, 0x00, 0xA1, 0x60, 0x0E, 0xAB] =
        .ok (.setWorkingPeriod q))
    ∧ decode_outcome
        ([0xAA, 0xC5, 0x08, 0x00, 0x05, 0x00, 0xA1, 0x60, 0x0E, 0xAB].set 9 0) =
      decode_outcome [0xAA, 0xC5, 0x08, 0x00, 0x05, 0x00, 0xA1, 0x60, 0x0E, 0xAB] :=
  ⟨(parse_packet_characterization.2.1
      [0xAA, 0xC5, 0x08, 0x00, 0x05, 0x00, 0xA1, 0x60, 0x0E, 0xAB]
      ⟨.setWorkingPeriod
          { query := true, working_period := .periodic 5, device := 0xA160 },
        by decide⟩).2.2.2.2.1 (by decide),
   parse_packet_characterization.2.2
     [0xAA, 0xC5, 0x08, 0x00, 0x05, 0x00, 0xA1, 0x60, 0x0E, 0xAB] 9 0 (Or.inr rfl)⟩

/-- C2: corrupting any single byte in positions 2..=7 of a frame that
`parse_packet` accepts — replacing it by any different byte — makes
`parse_packet` fail with the checksum-mismatch `PacketError`. -/
theorem parse_packet_corrupt_byte
    (packet : List Nat) (i b : Nat)
    (hok : ∃ r, parse_packet packet = .ok r)
    (hbytes : ∀ x ∈ packet, x < 256)
    (hb : b < 256)
    (hi2 : 2 ≤ i) (hi7 : i ≤ 7)
    (hne : b ≠ packet.getD i 0) :
    ∃ expected received,
      parse_packet (packet.set i b) =
        .error (.packetError (packet.set i b)
          (.invalidChecksum expected received)) := by
  obtain ⟨hlen, hck⟩ := parse_packet_ok_length_checksum hok
  obtain ⟨b0, b1, b2, b3, b4, b5, b6, b7, b8, b9, rfl⟩ := exists_ten hlen
  have hck' : checksum [b2, b3, b4, b5, b6, b7] = b8 := hck
  rw [checksum_eq_sum_mod] at hck'
  simp only [List.sum_cons, List.sum_nil] at hck'
  have h2 : b2 < 256 := hbytes _ (by simp)
  have h3 : b3 < 256 := hbytes _ (by simp)
  have h4 : b4 < 256 := hbytes _ (by simp)
  have h5 : b5 < 256 := hbytes _ (by simp)
  have h6 : b6 < 256 := hbytes _ (by simp)
  have h7 : b7 < 256 := hbytes _ (by simp)
  interval_cases i
  · have hne' : b ≠ b2 := hne
    have hset : [b0, b1, b2, b3, b4, b5, b6, b7, b8, b9].set 2 b =
        [b0, b1, b, b3, b4, b5, b6, b7, b8, b9] := rfl
    rw [hset]
    have hcond : checksum [b, b3, b4, b5, b6, b7] ≠ b8 := by
      rw [checksum_eq_sum_mod]
      simp only [List.sum_cons, List.sum_nil]
      omega
    exact ⟨_, _, by rw [parse_packet_explicit, if_pos hcond]⟩
  · have hne' : b ≠ b3 := hne
    have hset : [b0, b1, b2, b3, b4, b5, b6, b7, b8, b9].set 3 b =
        [b0, b1, b2, b, b4, b5, b6, b7, b8, b9] := rfl
    rw [hset]
    have hcond : checksum [b2, b, b4, b5, b6, b7] ≠ b8 := by
      rw [checksum_eq_sum_mod]
      simp only [List.sum_cons, List.sum_nil]
      omega
    exact ⟨_, _, by rw [parse_packet_explicit, if_pos hcond]⟩
  · have hne' : b ≠ b4 := hne
    have hset : [b0, b1, b2, b3, b4, b5, b6, b7, b8, b9].set 4 b =
        [b0, b1, b2, b3, b, b5, b6, b7, b8, b9] := rfl
    rw [hset]
    have hcond : checksum [b2, b3, b, b5, b6, b7] ≠ b8 := by
      rw [checksum_eq_sum_mod]
      simp only [List.sum_cons, List.sum_nil]
      omega
    exact ⟨_, _, by rw [parse_packet_explicit, if_pos hcond]⟩
  · have hne' : b ≠ b5 := hne
    have hset : [b0, b1, b2, b3, b4, b5, b6, b7, b8, b9].set 5 b =
        [b0, b1, b2, b3, b4, b, b6, b7, b8, b9] := rfl
    rw [hset]
    have hcond : checksum [b2, b3, b4, b, b6, b7] ≠ b8 := by
      rw [checksum_eq_sum_mod]
      simp only [List.sum_cons, List.sum_nil]
      omega
    exact ⟨_, _, by rw [parse_packet_explicit, if_pos hcond]⟩
  · have hne' : b ≠ b6 := hne
    have hset : [b0, b1, b2, b3, b4, b5, b6, b7, b8, b9].set 6 b =
        [b0, b1, b2, b3, b4, b5, b, b7, b8, b9] := rfl
    rw [hset]
    have hcond : checksum [b2, b3, b4, b5, b, b7] ≠ b8 := by
      rw [checksum_eq_sum_mod]
      simp only [List.sum_cons, List.sum_nil]
      omega
    exact ⟨_, _, by rw [parse_packet_explicit, if_pos hcond]⟩
  · have hne' : b ≠ b7 := hne
    have hset : [b0, b1, b2, b3, b4, b5, b6, b7, b8, b9].set 7 b =
        [b0, b1, b2, b3, b4, b5, b6, b, b8, b9] := rfl
    rw [hset]
    have hcond : checksum [b2, b3, b4, b5, b6, b] ≠ b8 := by
      rw [checksum_eq_sum_mod]
      simp only [List.sum_cons, List.sum_nil]
      omega
    exact ⟨_, _, by rw [parse_packet_explicit, if_pos hcond]⟩

/-- Witness for C2: corrupting byte 4 of the concrete accepted frame
(5 becomes 6) yields the checksum-mismatch error. -/
theorem parse_packet_corrupt_byte_witness :
    ∃ expected received,
      parse_packet
          ([0xAA, 0xC5, 0x08, 0x00, 0x05, 0x00, 0xA1, 0x60, 0x0E, 0xAB].set 4 6) =
        .error (.packetError
          ([0xAA, 0xC5, 0x08, 0x00, 0x05, 0x00, 0xA1, 0x60, 0x0E, 0xAB].set 4 6)
          (.invalidChecksum expected received)) :=
  parse_packet_corrupt_byte
    [0xAA, 0xC5, 0x08, 0x00, 0x05, 0x00, 0xA1, 0x60, 0x0E, 0xAB] 4 6
    ⟨.setWorkingPeriod
        { query := true, working_period := .periodic 5, device := 0xA160 },
      by decide⟩
    (by decide) (by decide) (by decide) (by decide) (by decide)

/-- C7: a checksum-valid `0xC0` frame decodes to a QueryResponse whose
`pm25` is the little-endian 16-bit value of bytes 2-3 divided by 10,
whose `pm10` is the little-endian value of bytes 4-5 divided by 10, and
whose `device` is the big-endian value of bytes 6-7; in particular the
raw pair `0x34, 0x00` gives `pm25 = 5.2` and `0x50, 0x00` gives
`pm10 = 8.0`. -/
theorem query_response_fields :
    (∀ packet : List Nat, packet.length = 10 →
      packet.getD 1 0 = 0xC0 →
      packet.getD 8 0 = checksum ((packet.drop 2).take 6) →
      parse_packet packet = .ok (.query
        { pm25 := ((packet.getD 2 0 + 256 * packet.getD 3 0 : Nat) : ℚ) / 10
          pm10 := ((packet.getD 4 0 + 256 * packet.getD 5 0 : Nat) : ℚ) / 10
          device := 256 * packet.getD 6 0 + packet.getD 7 0 }))
    ∧ parse_packet [0xAA, 0xC0, 0x34, 0x00, 0x50, 0x00, 0xA1, 0x60, 0x85, 0xAB] =
        .ok (.query { pm25 := 5.2, pm10 := 8, device := 0xA160 }) := by
  constructor
  · intro packet hlen hc0 hck
    obtain ⟨b0, b1, b2, b3, b4, b5, b6, b7, b8, b9, rfl⟩ := exists_ten hlen
    have hq1 : b1 = 0xC0 := hc0
    subst hq1
    have hck' : checksum [b2, b3, b4, b5, b6, b7] = b8 := hck.symm
    rw [parse_packet_explicit, if_neg (not_ne_iff.2 hck'), if_pos rfl]
    rfl
  · have e1 : ((52 : Nat) : ℚ) / 10 = 5.2 := by norm_num
    have e2 : ((80 : Nat) : ℚ) / 10 = 8 := by norm_num
    have hck' : checksum [0x34, 0x00, 0x50, 0x00, 0xA1, 0x60] = 0x85 := by decide
    have h := parse_packet_explicit 0xAA 0xC0 0x34 0x00 0x50 0x00 0xA1 0x60 0x85 0xAB
    rw [h, if_neg (not_ne_iff.2 hck'), if_pos rfl]
    show Except.ok (Response.query
      { pm25 := ((52 : Nat) : ℚ) / 10, pm10 := ((80 : Nat) : ℚ) / 10,
        device := 0xA160 }) = _
    rw [e1, e2]

/-- Witness for C7 at the concrete `0xC0` frame. -/
theorem query_response_fields_witness :
    parse_packet [0xAA, 0xC0, 0x34, 0x00, 0x50, 0x00, 0xA1, 0x60, 0x85, 0xAB] =
      .ok (.query
        { pm25 := (((0x34 : Nat) + 256 * (0x00 : Nat) : Nat) : ℚ) / 10
          pm10 := (((0x50 : Nat) + 256 * (0x00 : Nat) : Nat) : ℚ) / 10
          device := 256 * (0xA1 : Nat) + (0x60 : Nat) }) :=
  query_response_fields.1
    [0xAA, 0xC0, 0x34, 0x00, 0x50, 0x00, 0xA1, 0x60, 0x85, 0xAB]
    (by decide) (by decide) (by decide)

/-- C4 (divergence witness): at an accumulator state whose in-progress
buffer already exceeds the frame length, one more byte makes the loop
emit the "packet is too long" control error but keeps the grown buffer —
`current_packet` is not reset to Idle, contrary to the always-reset
design requirement. (From Idle such states are never reached, since the
buffer is cleared exactly on reaching 10 bytes.) -/
theorem acc_step_overflow_keeps_buffer :
    acc_step (some [0xAA, 1, 2, 3, 4, 5, 6, 7, 8, 9, 10]) 0 =
      (some [0xAA, 1, 2, 3, 4, 5, 6, 7, 8, 9, 10, 0],
        [.tooLong [0xAA, 1, 2, 3, 4, 5, 6, 7, 8, 9, 10, 0]]) := by
  decide

/-- C5: a stream of non-header garbage followed by `0xAA` and nine more
bytes hands exactly one complete frame — the ten bytes beginning at the
`0xAA` — to `parse_packet`, the garbage bytes are discarded without
emitting any event, and the accumulator ends Idle. -/
theorem acc_run_resync (garbage rest : List Nat)
    (hg : ∀ g ∈ garbage, g ≠ 0xAA)
    (hr : rest.length = 9) :
    acc_run none (garbage ++ 0xAA :: rest) =
      (none, [.framed (0xAA :: rest) (parse_packet (0xAA :: rest))]) := by
  rw [acc_run_garbage garbage hg]
  rw [acc_run_cons]
  have hstep : acc_step none 0xAA = (some [0xAA], []) := rfl
  rw [hstep]
  dsimp only
  rw [acc_run_fill rest [0xAA] (List.length_pos.1 (by omega)) (by simp [hr])]
  rfl

/-- Witness for C5: two garbage bytes, then the concrete valid frame. -/
theorem acc_run_resync_witness :
    acc_run none
        ([0x01, 0x02] ++ 0xAA :: [0xC5, 0x08, 0x00, 0x05, 0x00, 0xA1, 0x60, 0x0E, 0xAB]) =
      (none,
        [.framed (0xAA :: [0xC5, 0x08, 0x00, 0x05, 0x00, 0xA1, 0x60, 0x0E, 0xAB])
          (parse_packet (0xAA :: [0xC5, 0x08, 0x00, 0x05, 0x00, 0xA1, 0x60, 0x0E, 0xAB]))]) :=
  acc_run_resync [0x01, 0x02] [0xC5, 0x08, 0x00, 0x05, 0x00, 0xA1, 0x60, 0x0E, 0xAB]
    (by decide) (by decide)

/-- C9: in every accumulator state reachable from Idle, an in-progress
buffer has length between 1 and 10 (between iterations in fact at most
9), the buffer is cleared exactly when the appended byte brings it to
length 10, and consequently the "packet is too long" branch never fires
on any input stream. -/
theorem read_loop_buffer_invariant :
    (∀ bytes buf, (acc_run none bytes).1 = some buf →
      1 ≤ buf.length ∧ buf.length ≤ 10)
    ∧ (∀ bytes p, AccEvent.tooLong p ∉ (acc_run none bytes).2)
    ∧ (∀ bytes buf b, (acc_run none bytes).1 = some buf →
        ((acc_step (some buf) b).1 = none ↔ (buf ++ [b]).length = 10)) := by
  have base : ∀ buf, (none : Option (List Nat)) = some buf →
      1 ≤ buf.length ∧ buf.length ≤ 9 :=
    fun buf h => Option.noConfusion h
  refine ⟨?_, ?_, ?_⟩
  · intro bytes buf hbuf
    have h := (acc_run_inv bytes none base).1 buf hbuf
    omega
  · intro bytes p
    exact (acc_run_inv bytes none base).2 p
  · intro bytes buf b hbuf
    have hb9 := (acc_run_inv bytes none base).1 buf hbuf
    have hlena : (buf ++ [b]).length = buf.length + 1 := by simp
    constructor
    · intro hnone
      by_contra h10
      have hgt : ¬ (buf ++ [b]).length > 10 := by omega
      have hstep : acc_step (some buf) b = (some (buf ++ [b]), []) := by
        simp only [acc_step]
        rw [if_neg h10, if_neg hgt]
      rw [hstep] at hnone
      exact Option.noConfusion hnone
    · intro h10
      have hstep : acc_step (some buf) b =
          (none, [.framed (buf ++ [b]) (parse_packet (buf ++ [b]))]) := by
        simp only [acc_step]
        rw [if_pos h10]
      rw [hstep]

/-- Witness for C9: after the nine leading bytes of the concrete frame
the buffer holds nine bytes (within bounds), and appending the tail byte
clears it. -/
theorem read_loop_buffer_invariant_witness :
    (1 ≤ ([0xAA] : List Nat).length ∧ ([0xAA] : List Nat).length ≤ 10)
    ∧ ((acc_step (some [0xAA, 0xC5, 0x08, 0x00, 0x05, 0x00, 0xA1, 0x60, 0x0E]) 0xAB).1 = none ↔
        (([0xAA, 0xC5, 0x08, 0x00, 0x05, 0x00, 0xA1, 0x60, 0x0E] : List Nat) ++ [0xAB]).length = 10) :=
  ⟨read_loop_buffer_invariant.1 [0xAA] [0xAA] (by decide),
   read_loop_buffer_invariant.2.2
     [0xAA, 0xC5, 0x08, 0x00, 0x05, 0x00, 0xA1, 0x60, 0x0E]
     [0xAA, 0xC5, 0x08, 0x00, 0x05, 0x00, 0xA1, 0x60, 0x0E] 0xAB (by decide)⟩

end Sds011
